import Mathlib

/-!
Verification of the Vallox Digit SE serial-communication engine
(`vallox.py` together with the constants in `vallox_protocol.py`).

The Python code is shallowly embedded: the mutable `Vallox` object becomes an
explicit `ValloxState` record threaded through pure functions, the serial port
becomes a trace of written frames (`writes`), the `status_changed_callback`
invocations become a trace of field names (`notifications`), and
`time.monotonic()` becomes an explicit `now : Nat` parameter measured in
milliseconds (the Python code keeps seconds as floats; only differences and
comparisons against `CO2_LIFE_TIME_MS / 1000 = 2.0 s = 2000 ms` matter, so
whole-millisecond arithmetic is an exact model of every scenario considered
here).  Python values stored in the heterogeneous `self.data` dictionary are
modelled by `PyVal` (`None`, a bool, or an int), and a Python `TypeError`
raised during decoding is modelled by returning `some PyExn.typeError`
together with the state as mutated up to the raise point.
-/

namespace ValloxSpec

/-! ## Protocol constants (`vallox_protocol.py`) -/

def VX_MSG_LENGTH : Nat := 6
def VX_MSG_DOMAIN : Nat := 0x01
def VX_MSG_POLL_BYTE : Nat := 0x00

def VX_MSG_MAINBOARD_1 : Nat := 0x11
def VX_MSG_MAINBOARDS : Nat := 0x10
def VX_MSG_PANEL_1 : Nat := 0x21
def VX_MSG_THIS_PANEL : Nat := 0x22
def VX_MSG_PANELS : Nat := 0x20

def VX_VARIABLE_STATUS : Nat := 0xA3
def VX_VARIABLE_FAN_SPEED : Nat := 0x29
def VX_VARIABLE_DEFAULT_FAN_SPEED : Nat := 0xA9
def VX_VARIABLE_RH1 : Nat := 0x2F
def VX_VARIABLE_RH2 : Nat := 0x30
def VX_VARIABLE_SERVICE_PERIOD : Nat := 0xA6
def VX_VARIABLE_SERVICE_COUNTER : Nat := 0xAB
def VX_VARIABLE_T_OUTSIDE : Nat := 0x32
def VX_VARIABLE_T_INSIDE : Nat := 0x34
def VX_VARIABLE_T_EXHAUST : Nat := 0x33
def VX_VARIABLE_T_INCOMING : Nat := 0x35
def VX_VARIABLE_IO_08 : Nat := 0x08
def VX_VARIABLE_HEATING_TARGET : Nat := 0xA4
def VX_VARIABLE_FAULT_CODE : Nat := 0x36
def VX_VARIABLE_FLAGS_06 : Nat := 0x71
def VX_VARIABLE_HEATING_STATUS : Nat := 0x07
def VX_VARIABLE_PROGRAM : Nat := 0xAA
def VX_VARIABLE_CO2_HI : Nat := 0x2B
def VX_VARIABLE_CO2_LO : Nat := 0x2C

def VX_STATUS_FLAG_POWER : Nat := 0x01
def VX_STATUS_FLAG_CO2 : Nat := 0x02
def VX_STATUS_FLAG_RH : Nat := 0x04
def VX_STATUS_FLAG_HEATING_MODE : Nat := 0x08
def VX_STATUS_FLAG_FILTER : Nat := 0x10
def VX_STATUS_FLAG_HEATING : Nat := 0x20
def VX_STATUS_FLAG_FAULT : Nat := 0x40
def VX_STATUS_FLAG_SERVICE : Nat := 0x80

def VX_08_FLAG_SUMMER_MODE : Nat := 0x02
def VX_08_FLAG_ERROR_RELAY : Nat := 0x04
def VX_08_FLAG_MOTOR_IN : Nat := 0x08
def VX_08_FLAG_FRONT_HEATING : Nat := 0x10
def VX_08_FLAG_MOTOR_OUT : Nat := 0x20
def VX_08_FLAG_EXTRA_FUNC : Nat := 0x40

def VX_06_FIREPLACE_FLAG_ACTIVATE : Nat := 0x20
def VX_06_FIREPLACE_FLAG_IS_ACTIVE : Nat := 0x40

def VX_PROGRAM_SWITCH_TYPE : Nat := 0x20

def VX_FAN_SPEED_1 : Nat := 0x01
def VX_FAN_SPEED_2 : Nat := 0x03
def VX_FAN_SPEED_3 : Nat := 0x07
def VX_FAN_SPEED_4 : Nat := 0x0F
def VX_FAN_SPEED_5 : Nat := 0x1F
def VX_FAN_SPEED_6 : Nat := 0x3F
def VX_FAN_SPEED_7 : Nat := 0x7F
def VX_FAN_SPEED_8 : Nat := 0xFF
def VX_MIN_FAN_SPEED : Nat := 1
def VX_MAX_FAN_SPEED : Nat := 8

def VX_FAN_SPEEDS : List Nat :=
  [VX_FAN_SPEED_1, VX_FAN_SPEED_2, VX_FAN_SPEED_3, VX_FAN_SPEED_4,
   VX_FAN_SPEED_5, VX_FAN_SPEED_6, VX_FAN_SPEED_7, VX_FAN_SPEED_8]

/-- The 256-entry NTC byte → Celsius table `VX_TEMPS`. -/
def VX_TEMPS : List Int :=
  [-74, -70, -66, -62, -59, -56, -54, -52, -50, -48,
   -47, -46, -44, -43, -42, -41, -40, -39, -38, -37,
   -36, -35, -34, -33, -33, -32, -31, -30, -30, -29,
   -28, -28, -27, -27, -26, -25, -25, -24, -24, -23,
   -23, -22, -22, -21, -21, -20, -20, -19, -19, -19,
   -18, -18, -17, -17, -16, -16, -16, -15, -15, -14,
   -14, -14, -13, -13, -12, -12, -12, -11, -11, -11,
   -10, -10, -9, -9, -9, -8, -8, -8, -7, -7,
   -7, -6, -6, -6, -5, -5, -5, -4, -4, -4,
   -3, -3, -3, -2, -2, -2, -1, -1, -1, -1,
   0, 0, 0, 1, 1, 1, 2, 2, 2, 3,
   3, 3, 4, 4, 4, 5, 5, 5, 5, 6,
   6, 6, 7, 7, 7, 8, 8, 8, 9, 9,
   9, 10, 10, 10, 11, 11, 11, 12, 12, 12,
   13, 13, 13, 14, 14, 14, 15, 15, 15, 16,
   16, 16, 17, 17, 18, 18, 18, 19, 19, 19,
   20, 20, 21, 21, 21, 22, 22, 22, 23, 23,
   24, 24, 24, 25, 25, 26, 26, 27, 27, 27,
   28, 28, 29, 29, 30, 30, 31, 31, 32, 32,
   33, 33, 34, 34, 35, 35, 36, 36, 37, 37,
   38, 38, 39, 40, 40, 41, 41, 42, 43, 43,
   44, 45, 45, 46, 47, 48, 48, 49, 50, 51,
   52, 53, 53, 54, 55, 56, 57, 59, 60, 61,
   62, 63, 65, 66, 68, 69, 71, 73, 75, 77,
   79, 81, 82, 86, 90, 93, 97, 100, 100, 100,
   100, 100, 100, 100, 100, 100]

def NOT_SET : Int := -999
def QUERY_INTERVAL : Nat := 300
def RETRY_INTERVAL : Nat := 5
/-- `CO2_LIFE_TIME_MS = 2000`; the code compares elapsed seconds against
`CO2_LIFE_TIME_MS / 1000 = 2.0`, i.e. elapsed milliseconds against 2000. -/
def CO2_LIFE_TIME_MS : Nat := 2000

/-! ## Data model -/

/-- A Python value stored under a `self.data` key: `None`, a bool, or an int. -/
inductive PyVal
  | none
  | bool (b : Bool)
  | int (i : Int)
deriving DecidableEq

/-- A Python exception escaping the decode path. -/
inductive PyExn
  | typeError
deriving DecidableEq

/-- `ValueWithTimestamp`: value plus `last_received` timestamp.  `0` models the
Python initial value `0.0`, which is falsy ("never received"). -/
structure ValueWithTimestamp where
  value : PyVal := PyVal.none
  last_received : Nat := 0
deriving DecidableEq

/-- One 6-byte Vallox frame; `b0 … b5` are `message[0] … message[5]`
(`domain, sender, receiver, variable, value, checksum`). -/
structure Frame where
  b0 : Nat
  b1 : Nat
  b2 : Nat
  b3 : Nat
  b4 : Nat
  b5 : Nat
deriving DecidableEq

/-- The mutable state of a `Vallox` object.  The order of the
`ValueWithTimestamp` fields follows the insertion order of the `self.data`
dictionary (see `data_keys`); `is_boost_setting` and `program` live in the
separate `self.settings` dictionary.  `writes` is the trace of frames written
to the serial port and `notifications` the trace of
`status_changed_callback` invocations. -/
structure ValloxState where
  serialOpen : Bool := true
  full_init_done : Bool := false
  status_mutex : Bool := false
  last_requested : Nat := 0
  last_retry_loop : Nat := 0
  updated : Nat := 0
  is_on : ValueWithTimestamp := {}
  is_rh_mode : ValueWithTimestamp := {}
  is_heating_mode : ValueWithTimestamp := {}
  is_filter : ValueWithTimestamp := {}
  is_heating : ValueWithTimestamp := {}
  is_fault : ValueWithTimestamp := {}
  is_service_needed : ValueWithTimestamp := {}
  is_summer_mode : ValueWithTimestamp := {}
  is_error_relay : ValueWithTimestamp := {}
  is_motor_in : ValueWithTimestamp := {}
  is_front_heating : ValueWithTimestamp := {}
  is_motor_out : ValueWithTimestamp := {}
  is_extra_func : ValueWithTimestamp := {}
  is_switch_active : ValueWithTimestamp := {}
  outside_temp : ValueWithTimestamp := {}
  inside_temp : ValueWithTimestamp := {}
  exhaust_temp : ValueWithTimestamp := {}
  incoming_temp : ValueWithTimestamp := {}
  rh1 : ValueWithTimestamp := {}
  rh2 : ValueWithTimestamp := {}
  co2_hi : ValueWithTimestamp := {}
  co2_lo : ValueWithTimestamp := {}
  co2 : ValueWithTimestamp := {}
  fan_speed : ValueWithTimestamp := {}
  default_fan_speed : ValueWithTimestamp := {}
  service_period : ValueWithTimestamp := {}
  service_counter : ValueWithTimestamp := {}
  heating_target : ValueWithTimestamp := {}
  status : ValueWithTimestamp := {}
  variable08 : ValueWithTimestamp := {}
  flags06 : ValueWithTimestamp := {}
  is_boost_setting : ValueWithTimestamp := {}
  program : ValueWithTimestamp := {}
  writes : List Frame := []
  notifications : List String := []
deriving DecidableEq

/-- The freshly constructed state (`Vallox.__init__`): every observed value
unset, guard clear, initialization flag false. -/
def initState (serialOpen : Bool) : ValloxState := { serialOpen := serialOpen }

/-- The keys of the `self.data` dictionary in insertion order; this is the
iteration order of `for k, _ in self.data.items()` in `_decode_message`. -/
def data_keys : List String :=
  ["updated",
   "is_on", "is_rh_mode", "is_heating_mode", "is_filter", "is_heating",
   "is_fault", "is_service_needed", "is_summer_mode", "is_error_relay",
   "is_motor_in", "is_front_heating", "is_motor_out", "is_extra_func",
   "is_switch_active",
   "outside_temp", "inside_temp", "exhaust_temp", "incoming_temp",
   "rh1", "rh2", "co2_hi", "co2_lo", "co2",
   "fan_speed", "default_fan_speed", "service_period", "service_counter",
   "heating_target",
   "status", "variable08", "flags06"]

/-! ## Conversion methods -/

/-- `_ntc_to_cel`: bounds-checked lookup into `VX_TEMPS`, `NOT_SET`
out of range. -/
def ntc_to_cel (ntc : Nat) : Int :=
  if ntc < VX_TEMPS.length then VX_TEMPS.getD ntc 0 else NOT_SET

/-- `_cel_to_ntc`: `VX_TEMPS.index(cel)` (first matching index), defaulting to
`0x83` (10 °C) when the Celsius value is not in the table. -/
def cel_to_ntc (cel : Int) : Nat :=
  match VX_TEMPS.indexOf? cel with
  | some i => i
  | Option.none => 0x83

/-- `_fan_speed_to_hex`: valid speeds 1–8 index into `VX_FAN_SPEEDS`; anything
else falls back to `VX_FAN_SPEED_1`. -/
def fan_speed_to_hex (fan : Int) : Nat :=
  if 1 ≤ fan ∧ fan ≤ 8 then VX_FAN_SPEEDS.getD (fan - 1).toNat 0
  else VX_FAN_SPEED_1

/-- `_hex_to_fan_speed`: `VX_FAN_SPEEDS.index(hex) + 1`, `NOT_SET` when the
byte is not a fan-speed code. -/
def hex_to_fan_speed (hex_val : Nat) : Int :=
  match VX_FAN_SPEEDS.indexOf? hex_val with
  | some i => (i : Int) + 1
  | Option.none => NOT_SET

/-- `_hex_to_rh`: `int((hex_val - 51) / 2.04)` when `hex_val ≥ 51`, else
`NOT_SET`.  `(x - 51) / 2.04 = (x - 51) * 100 / 204` exactly, and for the
nonnegative arguments that occur `int` truncation is floor division. -/
def hex_to_rh (hex_val : Nat) : Int :=
  if 51 ≤ hex_val then ((hex_val : Int) - 51) * 100 / 204 else NOT_SET

/-! ## Frame codec -/

/-- `_calculate_checksum`: `sum(message[:5]) & 0xFF`. -/
def calculate_checksum (m : Frame) : Nat :=
  (m.b0 + m.b1 + m.b2 + m.b3 + m.b4) % 256

/-- `_validate_checksum`: the received `message[5]` must equal the computed
checksum. -/
def validate_checksum (m : Frame) : Bool :=
  calculate_checksum m == m.b5

/-- Building a frame and then overwriting `message[5]` with
`_calculate_checksum(message)`, as `_set_variable` / `_request_variable` do. -/
def with_checksum (b0 b1 b2 b3 b4 : Nat) : Frame :=
  let m : Frame := ⟨b0, b1, b2, b3, b4, 0⟩
  { m with b5 := calculate_checksum m }

/-- The sender allow-list used by `_read_message`. -/
def validSenders : List Nat :=
  [VX_MSG_MAINBOARD_1, VX_MSG_THIS_PANEL, VX_MSG_PANEL_1]

/-- The receiver allow-list used by `_read_message`. -/
def validReceivers : List Nat :=
  [VX_MSG_PANELS, VX_MSG_THIS_PANEL, VX_MSG_PANEL_1,
   VX_MSG_MAINBOARD_1, VX_MSG_MAINBOARDS]

/-- `_read_message`, viewed at the granularity of one candidate 6-byte frame
on the wire: the frame is passed on to decoding only if its first byte is the
domain constant and its sender/receiver bytes are in the allow-lists;
otherwise it is dropped (`None`). -/
def read_message (m : Frame) : Option Frame :=
  if m.b0 ≠ VX_MSG_DOMAIN then Option.none
  else if m.b1 ∈ validSenders ∧ m.b2 ∈ validReceivers then some m
  else Option.none

/-! ## Field references

`_check_status_change(name, new_value)` accesses `self.data[name]` for a
dynamic name.  Each name that occurs at a call site is embedded as a
`FieldRef`: the dictionary key together with the getter and setter for the
corresponding `ValloxState` field. -/

structure FieldRef where
  name : String
  get : ValloxState → ValueWithTimestamp
  set : ValloxState → ValueWithTimestamp → ValloxState

def is_on_ref : FieldRef :=
  ⟨"is_on", fun s => s.is_on, fun s v => { s with is_on := v }⟩

def is_rh_mode_ref : FieldRef :=
  ⟨"is_rh_mode", fun s => s.is_rh_mode, fun s v => { s with is_rh_mode := v }⟩

def is_heating_mode_ref : FieldRef :=
  ⟨"is_heating_mode", fun s => s.is_heating_mode,
   fun s v => { s with is_heating_mode := v }⟩

def is_filter_ref : FieldRef :=
  ⟨"is_filter", fun s => s.is_filter, fun s v => { s with is_filter := v }⟩

def is_heating_ref : FieldRef :=
  ⟨"is_heating", fun s => s.is_heating, fun s v => { s with is_heating := v }⟩

def is_fault_ref : FieldRef :=
  ⟨"is_fault", fun s => s.is_fault, fun s v => { s with is_fault := v }⟩

def is_service_needed_ref : FieldRef :=
  ⟨"is_service_needed", fun s => s.is_service_needed,
   fun s v => { s with is_service_needed := v }⟩

def is_summer_mode_ref : FieldRef :=
  ⟨"is_summer_mode", fun s => s.is_summer_mode,
   fun s v => { s with is_summer_mode := v }⟩

def is_error_relay_ref : FieldRef :=
  ⟨"is_error_relay", fun s => s.is_error_relay,
   fun s v => { s with is_error_relay := v }⟩

def is_motor_in_ref : FieldRef :=
  ⟨"is_motor_in", fun s => s.is_motor_in, fun s v => { s with is_motor_in := v }⟩

def is_front_heating_ref : FieldRef :=
  ⟨"is_front_heating", fun s => s.is_front_heating,
   fun s v => { s with is_front_heating := v }⟩

def is_motor_out_ref : FieldRef :=
  ⟨"is_motor_out", fun s => s.is_motor_out,
   fun s v => { s with is_motor_out := v }⟩

def is_extra_func_ref : FieldRef :=
  ⟨"is_extra_func", fun s => s.is_extra_func,
   fun s v => { s with is_extra_func := v }⟩

def is_switch_active_ref : FieldRef :=
  ⟨"is_switch_active", fun s => s.is_switch_active,
   fun s v => { s with is_switch_active := v }⟩

def outside_temp_ref : FieldRef :=
  ⟨"outside_temp", fun s => s.outside_temp,
   fun s v => { s with outside_temp := v }⟩

def inside_temp_ref : FieldRef :=
  ⟨"inside_temp", fun s => s.inside_temp, fun s v => { s with inside_temp := v }⟩

def exhaust_temp_ref : FieldRef :=
  ⟨"exhaust_temp", fun s => s.exhaust_temp,
   fun s v => { s with exhaust_temp := v }⟩

def incoming_temp_ref : FieldRef :=
  ⟨"incoming_temp", fun s => s.incoming_temp,
   fun s v => { s with incoming_temp := v }⟩

def rh1_ref : FieldRef :=
  ⟨"rh1", fun s => s.rh1, fun s v => { s with rh1 := v }⟩

def co2_ref : FieldRef :=
  ⟨"co2", fun s => s.co2, fun s v => { s with co2 := v }⟩

def fan_speed_ref : FieldRef :=
  ⟨"fan_speed", fun s => s.fan_speed, fun s v => { s with fan_speed := v }⟩

def default_fan_speed_ref : FieldRef :=
  ⟨"default_fan_speed", fun s => s.default_fan_speed,
   fun s v => { s with default_fan_speed := v }⟩

def service_period_ref : FieldRef :=
  ⟨"service_period", fun s => s.service_period,
   fun s v => { s with service_period := v }⟩

def service_counter_ref : FieldRef :=
  ⟨"service_counter", fun s => s.service_counter,
   fun s v => { s with service_counter := v }⟩

def heating_target_ref : FieldRef :=
  ⟨"heating_target", fun s => s.heating_target,
   fun s v => { s with heating_target := v }⟩

/-! ## Outbound writes -/

/-- `_call_status_changed(name)`: invoke the registered status-changed
callback (recorded in the `notifications` trace). -/
def call_status_changed (name : String) (s : ValloxState) : ValloxState :=
  { s with notifications := s.notifications ++ [name] }

/-- `_set_variable(variable, value, target)`: emit the set frame twice, first
`THIS_PANEL → target`, then `MAINBOARD_1 → PANELS`, recomputing
`message[5]` for each copy.  No-op when the serial port is not open. -/
def set_variable (var_id : Nat) (value : Nat) (target : Nat)
    (s : ValloxState) : ValloxState :=
  if s.serialOpen = false then s
  else
    let m1 := with_checksum VX_MSG_DOMAIN VX_MSG_THIS_PANEL target var_id value
    let s1 := { s with writes := s.writes ++ [m1] }
    let m2 := with_checksum VX_MSG_DOMAIN VX_MSG_MAINBOARD_1 VX_MSG_PANELS
                var_id value
    { s1 with writes := s1.writes ++ [m2] }

/-- `_set_status_variable`: write under the `status_mutex` guard; returns
`true` (and records the retry-timer reset) only when the guard was free. -/
def set_status_variable (var_id : Nat) (value : Nat) (now : Nat)
    (s : ValloxState) : ValloxState × Bool :=
  if s.status_mutex = false then
    let s1 := { s with status_mutex := true }
    let s2 := set_variable var_id value VX_MSG_MAINBOARD_1 s1
    ({ s2 with last_retry_loop := now }, true)
  else (s, false)

/-- `_request_variable`: write one poll frame
`[domain, THIS_PANEL, MAINBOARD_1, POLL, variable, checksum]`. -/
def request_variable (var_id : Nat) (s : ValloxState) : ValloxState :=
  if s.serialOpen = false then s
  else
    let m := with_checksum VX_MSG_DOMAIN VX_MSG_THIS_PANEL VX_MSG_MAINBOARD_1
               VX_MSG_POLL_BYTE var_id
    { s with writes := s.writes ++ [m] }

/-! ## Change dispatcher and decoders -/

/-- `_check_status_change(name, new_value)`: update the stored value when it
differs, bump `updated`, and fire the change callback only once
`full_init_done` holds.  (The `on_property_changed` call publishes to the
external bus layer and is not tracked here.) -/
def check_status_change (fld : FieldRef) (new_value : PyVal) (now : Nat)
    (s : ValloxState) : ValloxState :=
  let f := fld.get s
  if f.value ≠ new_value then
    let s1 := { fld.set s { f with value := new_value } with updated := now }
    if s1.full_init_done then
      { s1 with notifications := s1.notifications ++ [fld.name] }
    else s1
  else s

/-- `_handle_co2_total_value(hi, lo)`: `total = lo + (hi << 8)`.  Adding a
non-int (the unset `None`) is a Python `TypeError`. -/
def handle_co2_total_value (hi lo : PyVal) (now : Nat) (s : ValloxState) :
    ValloxState × Option PyExn :=
  match hi, lo with
  | PyVal.int h, PyVal.int l =>
      (check_status_change co2_ref (PyVal.int (l + h * 2 ^ 8)) now s,
       Option.none)
  | _, _ => (s, some PyExn.typeError)

/-- `_decode_status`: stamp all seven status flags plus the raw status byte as
received, fan the byte out to the boolean fields, then clear the
Pending-Write Guard. -/
def decode_status (status : Nat) (now : Nat) (s : ValloxState) : ValloxState :=
  let s0 := { s with
    is_on := { s.is_on with last_received := now },
    is_rh_mode := { s.is_rh_mode with last_received := now },
    is_heating_mode := { s.is_heating_mode with last_received := now },
    is_filter := { s.is_filter with last_received := now },
    is_heating := { s.is_heating with last_received := now },
    is_fault := { s.is_fault with last_received := now },
    is_service_needed := { s.is_service_needed with last_received := now },
    status := { value := PyVal.int status, last_received := now } }
  let s1 := check_status_change is_on_ref
    (PyVal.bool (status &&& VX_STATUS_FLAG_POWER != 0)) now s0
  let s2 := check_status_change is_rh_mode_ref
    (PyVal.bool (status &&& VX_STATUS_FLAG_RH != 0)) now s1
  let s3 := check_status_change is_heating_mode_ref
    (PyVal.bool (status &&& VX_STATUS_FLAG_HEATING_MODE != 0)) now s2
  let s4 := check_status_change is_filter_ref
    (PyVal.bool (status &&& VX_STATUS_FLAG_FILTER != 0)) now s3
  let s5 := check_status_change is_heating_ref
    (PyVal.bool (status &&& VX_STATUS_FLAG_HEATING != 0)) now s4
  let s6 := check_status_change is_fault_ref
    (PyVal.bool (status &&& VX_STATUS_FLAG_FAULT != 0)) now s5
  let s7 := check_status_change is_service_needed_ref
    (PyVal.bool (status &&& VX_STATUS_FLAG_SERVICE != 0)) now s6
  { s7 with status_mutex := false }

/-- `_decode_variable08`. -/
def decode_variable08 (variable08 : Nat) (now : Nat) (s : ValloxState) :
    ValloxState :=
  let s0 := { s with
    is_summer_mode := { s.is_summer_mode with last_received := now },
    is_error_relay := { s.is_error_relay with last_received := now },
    is_motor_in := { s.is_motor_in with last_received := now },
    is_front_heating := { s.is_front_heating with last_received := now },
    is_motor_out := { s.is_motor_out with last_received := now },
    is_extra_func := { s.is_extra_func with last_received := now },
    variable08 := { value := PyVal.int variable08, last_received := now } }
  let s1 := check_status_change is_summer_mode_ref
    (PyVal.bool (variable08 &&& VX_08_FLAG_SUMMER_MODE != 0)) now s0
  let s2 := check_status_change is_error_relay_ref
    (PyVal.bool (variable08 &&& VX_08_FLAG_ERROR_RELAY != 0)) now s1
  let s3 := check_status_change is_motor_in_ref
    (PyVal.bool (variable08 &&& VX_08_FLAG_MOTOR_IN != 0)) now s2
  let s4 := check_status_change is_front_heating_ref
    (PyVal.bool (variable08 &&& VX_08_FLAG_FRONT_HEATING != 0)) now s3
  let s5 := check_status_change is_motor_out_ref
    (PyVal.bool (variable08 &&& VX_08_FLAG_MOTOR_OUT != 0)) now s4
  check_status_change is_extra_func_ref
    (PyVal.bool (variable08 &&& VX_08_FLAG_EXTRA_FUNC != 0)) now s5

/-- `_decode_flags06`. -/
def decode_flags06 (flags06 : Nat) (now : Nat) (s : ValloxState) :
    ValloxState :=
  let s0 := { s with
    is_switch_active := { s.is_switch_active with last_received := now },
    flags06 := { value := PyVal.int flags06, last_received := now } }
  check_status_change is_switch_active_ref
    (PyVal.bool (flags06 &&& VX_06_FIREPLACE_FLAG_IS_ACTIVE != 0)) now s0

/-- `_decode_program`. -/
def decode_program (prog : Nat) (now : Nat) (s : ValloxState) : ValloxState :=
  let should_inform := s.is_boost_setting.last_received = 0
  let s0 := { s with
    is_boost_setting := { s.is_boost_setting with last_received := now },
    program := { value := PyVal.int prog, last_received := now } }
  let old_value := s0.is_boost_setting.value
  let new_value := PyVal.bool (prog &&& VX_PROGRAM_SWITCH_TYPE != 0)
  if old_value ≠ new_value then
    let s1 := { s0 with
      is_boost_setting := { s0.is_boost_setting with value := new_value } }
    call_status_changed "is_boost_setting" s1
  else if should_inform then call_status_changed "is_boost_setting" s0
  else s0

/-- `_is_status_init_done`: all thirteen listed entries must carry a truthy
(`≠ 0`) `last_received` stamp. -/
def is_status_init_done (s : ValloxState) : Bool :=
  s.is_on.last_received != 0 &&
  s.is_rh_mode.last_received != 0 &&
  s.is_heating_mode.last_received != 0 &&
  s.variable08.last_received != 0 &&
  s.is_filter.last_received != 0 &&
  s.is_heating.last_received != 0 &&
  s.is_fault.last_received != 0 &&
  s.is_service_needed.last_received != 0 &&
  s.fan_speed.last_received != 0 &&
  s.default_fan_speed.last_received != 0 &&
  s.service_period.last_received != 0 &&
  s.service_counter.last_received != 0 &&
  s.heating_target.last_received != 0

/-- The `VX_VARIABLE_CO2_HI` branch of `_decode_message`: stamp and store the
hi half-byte, then combine only when the lo half-byte arrived within the
CO₂ window. -/
def decode_co2_hi (value now : Nat) (s : ValloxState) :
    ValloxState × Option PyExn :=
  let s0 := { s with co2_hi := { value := PyVal.int value, last_received := now } }
  if now - s0.co2_lo.last_received < CO2_LIFE_TIME_MS then
    handle_co2_total_value s0.co2_hi.value s0.co2_lo.value now s0
  else (s0, Option.none)

/-- The `VX_VARIABLE_CO2_LO` branch of `_decode_message`. -/
def decode_co2_lo (value now : Nat) (s : ValloxState) :
    ValloxState × Option PyExn :=
  let s0 := { s with co2_lo := { value := PyVal.int value, last_received := now } }
  if now - s0.co2_hi.last_received < CO2_LIFE_TIME_MS then
    handle_co2_total_value s0.co2_hi.value s0.co2_lo.value now s0
  else (s0, Option.none)

/-- The `VX_VARIABLE_FAN_SPEED` branch: stamp `last_received`, then dispatch
the converted value. -/
def decode_fan_speed_var (value now : Nat) (s : ValloxState) : ValloxState :=
  let s0 := { s with fan_speed := { s.fan_speed with last_received := now } }
  check_status_change fan_speed_ref (PyVal.int (hex_to_fan_speed value)) now s0

/-- The `VX_VARIABLE_DEFAULT_FAN_SPEED` branch. -/
def decode_default_fan_speed_var (value now : Nat) (s : ValloxState) :
    ValloxState :=
  let s0 := { s with
    default_fan_speed := { s.default_fan_speed with last_received := now } }
  check_status_change default_fan_speed_ref
    (PyVal.int (hex_to_fan_speed value)) now s0

/-- The `VX_VARIABLE_SERVICE_PERIOD` branch. -/
def decode_service_period_var (value now : Nat) (s : ValloxState) :
    ValloxState :=
  let s0 := { s with
    service_period := { s.service_period with last_received := now } }
  check_status_change service_period_ref (PyVal.int value) now s0

/-- The `VX_VARIABLE_SERVICE_COUNTER` branch. -/
def decode_service_counter_var (value now : Nat) (s : ValloxState) :
    ValloxState :=
  let s0 := { s with
    service_counter := { s.service_counter with last_received := now } }
  check_status_change service_counter_ref (PyVal.int value) now s0

/-- The `VX_VARIABLE_HEATING_TARGET` branch. -/
def decode_heating_target_var (value now : Nat) (s : ValloxState) :
    ValloxState :=
  let s0 := { s with
    heating_target := { s.heating_target with last_received := now } }
  check_status_change heating_target_ref (PyVal.int (ntc_to_cel value)) now s0

/-- The per-variable dispatch of `_decode_message` (the if/elif chain on
`message[3]`).  The RH2 branch calls `_check_status_change('rh2', …, now)`
with three arguments while that method takes `(name, new_value)` only: in
Python this is a `TypeError` raised before any mutation in that branch. -/
def decode_branch (var_id value now : Nat) (s : ValloxState) :
    ValloxState × Option PyExn :=
  if var_id = VX_VARIABLE_T_OUTSIDE then
    (check_status_change outside_temp_ref (PyVal.int (ntc_to_cel value)) now s,
     Option.none)
  else if var_id = VX_VARIABLE_T_EXHAUST then
    (check_status_change exhaust_temp_ref (PyVal.int (ntc_to_cel value)) now s,
     Option.none)
  else if var_id = VX_VARIABLE_T_INSIDE then
    (check_status_change inside_temp_ref (PyVal.int (ntc_to_cel value)) now s,
     Option.none)
  else if var_id = VX_VARIABLE_T_INCOMING then
    (check_status_change incoming_temp_ref (PyVal.int (ntc_to_cel value)) now s,
     Option.none)
  else if var_id = VX_VARIABLE_RH1 then
    (check_status_change rh1_ref (PyVal.int (hex_to_rh value)) now s,
     Option.none)
  else if var_id = VX_VARIABLE_RH2 then
    (s, some PyExn.typeError)
  else if var_id = VX_VARIABLE_CO2_HI then
    decode_co2_hi value now s
  else if var_id = VX_VARIABLE_CO2_LO then
    decode_co2_lo value now s
  else if var_id = VX_VARIABLE_FAN_SPEED then
    (decode_fan_speed_var value now s, Option.none)
  else if var_id = VX_VARIABLE_DEFAULT_FAN_SPEED then
    (decode_default_fan_speed_var value now s, Option.none)
  else if var_id = VX_VARIABLE_STATUS then
    (decode_status value now s, Option.none)
  else if var_id = VX_VARIABLE_IO_08 then
    (decode_variable08 value now s, Option.none)
  else if var_id = VX_VARIABLE_FLAGS_06 then
    (decode_flags06 value now s, Option.none)
  else if var_id = VX_VARIABLE_SERVICE_PERIOD then
    (decode_service_period_var value now s, Option.none)
  else if var_id = VX_VARIABLE_SERVICE_COUNTER then
    (decode_service_counter_var value now s, Option.none)
  else if var_id = VX_VARIABLE_HEATING_TARGET then
    (decode_heating_target_var value now s, Option.none)
  else if var_id = VX_VARIABLE_PROGRAM then
    (decode_program value now s, Option.none)
  else (s, Option.none)

/-- `_decode_message`: drop checksum-invalid frames, dispatch on
`message[3]`, then, while not yet fully initialized, recompute
`full_init_done` and on the false→true transition fire the synthetic
change notification for every key of `self.data` in insertion order. -/
def decode_message (m : Frame) (now : Nat) (s : ValloxState) :
    ValloxState × Option PyExn :=
  if validate_checksum m then
    match decode_branch m.b3 m.b4 now s with
    | (s1, some e) => (s1, some e)
    | (s1, Option.none) =>
        if s1.full_init_done = false then
          let s2 := { s1 with full_init_done := is_status_init_done s1 }
          if s2.full_init_done then
            ({ s2 with notifications := s2.notifications ++ data_keys },
             Option.none)
          else (s2, Option.none)
        else (s1, Option.none)
  else (s, Option.none)

/-- One frame through `_read_message` filtering followed by
`_decode_message`. -/
def process_frame (m : Frame) (now : Nat) (s : ValloxState) :
    ValloxState × Option PyExn :=
  if s.serialOpen = false then (s, Option.none)
  else
    match read_message m with
    | Option.none => (s, Option.none)
    | some m2 => decode_message m2 now s

/-- A whole arrival sequence of timestamped candidate frames, in order. -/
def process_frames (ms : List (Frame × Nat)) (s : ValloxState) : ValloxState :=
  match ms with
  | [] => s
  | (m, now) :: rest => process_frames rest (process_frame m now s).1

/-! ## Typed getters

Each getter returns the Python value the property would return: the stored
value, or the stated fallback when the field is unset. -/

/-- The `inside_temp` property: stored value, or `0` when it is `None`. -/
def inside_temp_get (s : ValloxState) : PyVal :=
  if s.inside_temp.value = PyVal.none then PyVal.int 0 else s.inside_temp.value

/-- The `outside_temp` property: stored value, or `0` when it is `None`. -/
def outside_temp_get (s : ValloxState) : PyVal :=
  if s.outside_temp.value = PyVal.none then PyVal.int 0
  else s.outside_temp.value

/-- The `incoming_temp` property: stored value, or `0` when it is `None`. -/
def incoming_temp_get (s : ValloxState) : PyVal :=
  if s.incoming_temp.value = PyVal.none then PyVal.int 0
  else s.incoming_temp.value

/-- The `exhaust_temp` property: stored value, or `0` when it is `None`. -/
def exhaust_temp_get (s : ValloxState) : PyVal :=
  if s.exhaust_temp.value = PyVal.none then PyVal.int 0
  else s.exhaust_temp.value

/-- The `rh1` property: `NOT_SET` while `last_received` is falsy or the value
is `None`. -/
def rh1_get (s : ValloxState) : PyVal :=
  if s.rh1.last_received = 0 then PyVal.int NOT_SET
  else if s.rh1.value = PyVal.none then PyVal.int NOT_SET
  else s.rh1.value

/-- The `rh2` property. -/
def rh2_get (s : ValloxState) : PyVal :=
  if s.rh2.last_received = 0 then PyVal.int NOT_SET
  else if s.rh2.value = PyVal.none then PyVal.int NOT_SET
  else s.rh2.value

/-- The `co2` property. -/
def co2_get (s : ValloxState) : PyVal :=
  if s.co2.last_received = 0 then PyVal.int NOT_SET
  else if s.co2.value = PyVal.none then PyVal.int NOT_SET
  else s.co2.value

/-- The `fan_speed` property getter. -/
def fan_speed_get (s : ValloxState) : PyVal :=
  if s.fan_speed.value = PyVal.none then PyVal.int NOT_SET
  else s.fan_speed.value

/-- The `default_fan_speed` property getter. -/
def default_fan_speed_get (s : ValloxState) : PyVal :=
  if s.default_fan_speed.value = PyVal.none then PyVal.int NOT_SET
  else s.default_fan_speed.value

/-- The `service_period` property getter. -/
def service_period_get (s : ValloxState) : PyVal :=
  if s.service_period.value = PyVal.none then PyVal.int NOT_SET
  else s.service_period.value

/-- The `service_counter` property getter. -/
def service_counter_get (s : ValloxState) : PyVal :=
  if s.service_counter.value = PyVal.none then PyVal.int NOT_SET
  else s.service_counter.value

/-- The `heating_target` property getter. -/
def heating_target_get (s : ValloxState) : PyVal :=
  if s.heating_target.value = PyVal.none then PyVal.int NOT_SET
  else s.heating_target.value

/-! ## Writable-field setters -/

/-- The `fan_speed` property setter: guard is `speed <= VX_MAX_FAN_SPEED`
(only the upper bound is checked in the source). -/
def fan_speed_set (speed : Int) (s : ValloxState) : ValloxState :=
  if speed ≤ (VX_MAX_FAN_SPEED : Int) then
    let s1 := set_variable VX_VARIABLE_FAN_SPEED (fan_speed_to_hex speed)
                VX_MSG_MAINBOARDS s
    let s2 := { s1 with fan_speed := { s1.fan_speed with value := PyVal.int speed } }
    call_status_changed "fan_speed" s2
  else s

/-- The `default_fan_speed` property setter: guard is
`speed <= VX_MAX_FAN_SPEED`. -/
def default_fan_speed_set (speed : Int) (s : ValloxState) : ValloxState :=
  if speed ≤ (VX_MAX_FAN_SPEED : Int) then
    let s1 := set_variable VX_VARIABLE_DEFAULT_FAN_SPEED
                (fan_speed_to_hex speed) VX_MSG_MAINBOARDS s
    let s2 := { s1 with
      default_fan_speed := { s1.default_fan_speed with value := PyVal.int speed } }
    call_status_changed "default_fan_speed" s2
  else s

/-- The `service_period` property setter: guard is `0 <= months < 256`. -/
def service_period_set (months : Int) (s : ValloxState) : ValloxState :=
  if 0 ≤ months ∧ months < 256 then
    let s1 := set_variable VX_VARIABLE_SERVICE_PERIOD months.toNat
                VX_MSG_MAINBOARDS s
    let s2 := { s1 with
      service_period := { s1.service_period with value := PyVal.int months } }
    call_status_changed "service_period" s2
  else s

/-- The `service_counter` property setter: guard is `0 <= months < 256`. -/
def service_counter_set (months : Int) (s : ValloxState) : ValloxState :=
  if 0 ≤ months ∧ months < 256 then
    let s1 := set_variable VX_VARIABLE_SERVICE_COUNTER months.toNat
                VX_MSG_MAINBOARDS s
    let s2 := { s1 with
      service_counter := { s1.service_counter with value := PyVal.int months } }
    call_status_changed "service_counter" s2
  else s

/-- The `heating_target` property setter: guard is `10 <= celsius <= 27`. -/
def heating_target_set (celsius : Int) (s : ValloxState) : ValloxState :=
  if 10 ≤ celsius ∧ celsius ≤ 27 then
    let s1 := set_variable VX_VARIABLE_HEATING_TARGET (cel_to_ntc celsius)
                VX_MSG_MAINBOARDS s
    let s2 := { s1 with
      heating_target := { s1.heating_target with value := PyVal.int celsius } }
    call_status_changed "heating_target" s2
  else s

/-! ## Status-bitfield actions -/

/-- `v & ~flag` for the nonnegative status byte: clearing the flag bits. -/
def clear_flag (v flag : Nat) : Nat := v - (v &&& flag)

/-- `set_on`: read-modify-write of the shadow status byte under the guard.
`self.data['status'].value | VX_STATUS_FLAG_POWER` is a `TypeError` when the
shadow byte is still `None`. -/
def set_on (now : Nat) (s : ValloxState) : ValloxState × Option PyExn :=
  match s.status.value with
  | PyVal.int v =>
      let r := set_status_variable VX_VARIABLE_STATUS
                 (v.toNat ||| VX_STATUS_FLAG_POWER) now s
      if r.2 then
        let s1 := { r.1 with is_on := { r.1.is_on with value := PyVal.bool true } }
        (call_status_changed "is_on" s1, Option.none)
      else (r.1, Option.none)
  | _ => (s, some PyExn.typeError)

/-- `set_off`: as `set_on` with `value & ~VX_STATUS_FLAG_POWER`. -/
def set_off (now : Nat) (s : ValloxState) : ValloxState × Option PyExn :=
  match s.status.value with
  | PyVal.int v =>
      let r := set_status_variable VX_VARIABLE_STATUS
                 (clear_flag v.toNat VX_STATUS_FLAG_POWER) now s
      if r.2 then
        let s1 := { r.1 with is_on := { r.1.is_on with value := PyVal.bool false } }
        (call_status_changed "is_on" s1, Option.none)
      else (r.1, Option.none)
  | _ => (s, some PyExn.typeError)

/-- `set_rh_mode_on`: as `set_on` with the RH flag. -/
def set_rh_mode_on (now : Nat) (s : ValloxState) : ValloxState × Option PyExn :=
  match s.status.value with
  | PyVal.int v =>
      let r := set_status_variable VX_VARIABLE_STATUS
                 (v.toNat ||| VX_STATUS_FLAG_RH) now s
      if r.2 then
        let s1 := { r.1 with
          is_rh_mode := { r.1.is_rh_mode with value := PyVal.bool true } }
        (call_status_changed "is_rh_mode" s1, Option.none)
      else (r.1, Option.none)
  | _ => (s, some PyExn.typeError)

/-- `set_rh_mode_off`: as `set_off` with the RH flag. -/
def set_rh_mode_off (now : Nat) (s : ValloxState) : ValloxState × Option PyExn :=
  match s.status.value with
  | PyVal.int v =>
      let r := set_status_variable VX_VARIABLE_STATUS
                 (clear_flag v.toNat VX_STATUS_FLAG_RH) now s
      if r.2 then
        let s1 := { r.1 with
          is_rh_mode := { r.1.is_rh_mode with value := PyVal.bool false } }
        (call_status_changed "is_rh_mode" s1, Option.none)
      else (r.1, Option.none)
  | _ => (s, some PyExn.typeError)

/-- `set_heating_mode_on`: when the shadow status byte already has the
heating-mode bit set, the "already on" branch fires
`_call_status_changed('is_heating_mode')` without consulting the guard (the
`_debug_print` output is not tracked); otherwise the write goes through
`_set_status_variable` under the guard. -/
def set_heating_mode_on (now : Nat) (s : ValloxState) :
    ValloxState × Option PyExn :=
  match s.status.value with
  | PyVal.int v =>
      if v.toNat &&& VX_STATUS_FLAG_HEATING_MODE ≠ 0 then
        (call_status_changed "is_heating_mode" s, Option.none)
      else
        let r := set_status_variable VX_VARIABLE_STATUS
                   (v.toNat ||| VX_STATUS_FLAG_HEATING_MODE) now s
        if r.2 then
          let s1 := { r.1 with
            is_heating_mode :=
              { r.1.is_heating_mode with value := PyVal.bool true } }
          (call_status_changed "is_heating_mode" s1, Option.none)
        else (r.1, Option.none)
  | _ => (s, some PyExn.typeError)

/-- `set_heating_mode_off`: the "already off" branch (heating-mode bit clear)
fires the notification without consulting the guard; otherwise the masked
write goes through `_set_status_variable`. -/
def set_heating_mode_off (now : Nat) (s : ValloxState) :
    ValloxState × Option PyExn :=
  match s.status.value with
  | PyVal.int v =>
      if v.toNat &&& VX_STATUS_FLAG_HEATING_MODE = 0 then
        (call_status_changed "is_heating_mode" s, Option.none)
      else
        let r := set_status_variable VX_VARIABLE_STATUS
                   (clear_flag v.toNat VX_STATUS_FLAG_HEATING_MODE) now s
        if r.2 then
          let s1 := { r.1 with
            is_heating_mode :=
              { r.1.is_heating_mode with value := PyVal.bool false } }
          (call_status_changed "is_heating_mode" s1, Option.none)
        else (r.1, Option.none)
  | _ => (s, some PyExn.typeError)

/-! ## Retry loop -/

/-- `_send_missing_requests`: re-request every field never received. -/
def send_missing_requests (s : ValloxState) : ValloxState :=
  let s1 := if s.is_on.last_received = 0 then
    request_variable VX_VARIABLE_STATUS s else s
  let s2 := if s1.variable08.last_received = 0 then
    request_variable VX_VARIABLE_IO_08 s1 else s1
  let s3 := if s2.fan_speed.last_received = 0 then
    request_variable VX_VARIABLE_FAN_SPEED s2 else s2
  let s4 := if s3.default_fan_speed.last_received = 0 then
    request_variable VX_VARIABLE_DEFAULT_FAN_SPEED s3 else s3
  let s5 := if s4.service_period.last_received = 0 then
    request_variable VX_VARIABLE_SERVICE_PERIOD s4 else s4
  let s6 := if s5.service_counter.last_received = 0 then
    request_variable VX_VARIABLE_SERVICE_COUNTER s5 else s5
  if s6.heating_target.last_received = 0 then
    request_variable VX_VARIABLE_HEATING_TARGET s6 else s6

/-- `_retry_loop`: re-issue missing requests and unconditionally clear the
Pending-Write Guard. -/
def retry_loop (now : Nat) (s : ValloxState) : ValloxState :=
  let s1 := send_missing_requests s
  { s1 with status_mutex := false, last_retry_loop := now }

/-! ## Helper lemmas: the change dispatcher leaves the scalar state alone -/

/-- A field reference whose setter touches only its own
`ValueWithTimestamp`, leaving the initialization flag, the guard, the write
trace and the notification trace unchanged.  Every reference defined above
satisfies this by construction. -/
def scalar_preserving (fld : FieldRef) : Prop :=
  ∀ s v, (fld.set s v).full_init_done = s.full_init_done ∧
    (fld.set s v).status_mutex = s.status_mutex ∧
    (fld.set s v).writes = s.writes ∧
    (fld.set s v).notifications = s.notifications

theorem is_on_ref_sp : scalar_preserving is_on_ref :=
  fun _ _ => ⟨rfl, rfl, rfl, rfl⟩

theorem is_rh_mode_ref_sp : scalar_preserving is_rh_mode_ref :=
  fun _ _ => ⟨rfl, rfl, rfl, rfl⟩

theorem is_heating_mode_ref_sp : scalar_preserving is_heating_mode_ref :=
  fun _ _ => ⟨rfl, rfl, rfl, rfl⟩

theorem is_filter_ref_sp : scalar_preserving is_filter_ref :=
  fun _ _ => ⟨rfl, rfl, rfl, rfl⟩

theorem is_heating_ref_sp : scalar_preserving is_heating_ref :=
  fun _ _ => ⟨rfl, rfl, rfl, rfl⟩

theorem is_fault_ref_sp : scalar_preserving is_fault_ref :=
  fun _ _ => ⟨rfl, rfl, rfl, rfl⟩

theorem is_service_needed_ref_sp : scalar_preserving is_service_needed_ref :=
  fun _ _ => ⟨rfl, rfl, rfl, rfl⟩

theorem is_summer_mode_ref_sp : scalar_preserving is_summer_mode_ref :=
  fun _ _ => ⟨rfl, rfl, rfl, rfl⟩

theorem is_error_relay_ref_sp : scalar_preserving is_error_relay_ref :=
  fun _ _ => ⟨rfl, rfl, rfl, rfl⟩

theorem is_motor_in_ref_sp : scalar_preserving is_motor_in_ref :=
  fun _ _ => ⟨rfl, rfl, rfl, rfl⟩

theorem is_front_heating_ref_sp : scalar_preserving is_front_heating_ref :=
  fun _ _ => ⟨rfl, rfl, rfl, rfl⟩

theorem is_motor_out_ref_sp : scalar_preserving is_motor_out_ref :=
  fun _ _ => ⟨rfl, rfl, rfl, rfl⟩

theorem is_extra_func_ref_sp : scalar_preserving is_extra_func_ref :=
  fun _ _ => ⟨rfl, rfl, rfl, rfl⟩

theorem is_switch_active_ref_sp : scalar_preserving is_switch_active_ref :=
  fun _ _ => ⟨rfl, rfl, rfl, rfl⟩

theorem outside_temp_ref_sp : scalar_preserving outside_temp_ref :=
  fun _ _ => ⟨rfl, rfl, rfl, rfl⟩

theorem inside_temp_ref_sp : scalar_preserving inside_temp_ref :=
  fun _ _ => ⟨rfl, rfl, rfl, rfl⟩

theorem exhaust_temp_ref_sp : scalar_preserving exhaust_temp_ref :=
  fun _ _ => ⟨rfl, rfl, rfl, rfl⟩

theorem incoming_temp_ref_sp : scalar_preserving incoming_temp_ref :=
  fun _ _ => ⟨rfl, rfl, rfl, rfl⟩

theorem rh1_ref_sp : scalar_preserving rh1_ref :=
  fun _ _ => ⟨rfl, rfl, rfl, rfl⟩

theorem co2_ref_sp : scalar_preserving co2_ref :=
  fun _ _ => ⟨rfl, rfl, rfl, rfl⟩

theorem fan_speed_ref_sp : scalar_preserving fan_speed_ref :=
  fun _ _ => ⟨rfl, rfl, rfl, rfl⟩

theorem default_fan_speed_ref_sp : scalar_preserving default_fan_speed_ref :=
  fun _ _ => ⟨rfl, rfl, rfl, rfl⟩

theorem service_period_ref_sp : scalar_preserving service_period_ref :=
  fun _ _ => ⟨rfl, rfl, rfl, rfl⟩

theorem service_counter_ref_sp : scalar_preserving service_counter_ref :=
  fun _ _ => ⟨rfl, rfl, rfl, rfl⟩

theorem heating_target_ref_sp : scalar_preserving heating_target_ref :=
  fun _ _ => ⟨rfl, rfl, rfl, rfl⟩

theorem csc_full_init (fld : FieldRef) (h : scalar_preserving fld)
    (nv : PyVal) (now : Nat) (s : ValloxState) :
    (check_status_change fld nv now s).full_init_done = s.full_init_done := by
  unfold check_status_change
  by_cases hne : (fld.get s).value ≠ nv
  · simp only [if_pos hne]
    have h1 := (h s { fld.get s with value := nv }).1
    split <;> simpa using h1
  · simp only [if_neg hne]

theorem csc_mutex (fld : FieldRef) (h : scalar_preserving fld)
    (nv : PyVal) (now : Nat) (s : ValloxState) :
    (check_status_change fld nv now s).status_mutex = s.status_mutex := by
  unfold check_status_change
  by_cases hne : (fld.get s).value ≠ nv
  · simp only [if_pos hne]
    have h1 := (h s { fld.get s with value := nv }).2.1
    split <;> simpa using h1
  · simp only [if_neg hne]

theorem csc_writes (fld : FieldRef) (h : scalar_preserving fld)
    (nv : PyVal) (now : Nat) (s : ValloxState) :
    (check_status_change fld nv now s).writes = s.writes := by
  unfold check_status_change
  by_cases hne : (fld.get s).value ≠ nv
  · simp only [if_pos hne]
    have h1 := (h s { fld.get s with value := nv }).2.2.1
    split <;> simpa using h1
  · simp only [if_neg hne]

theorem decode_status_full_init (b now : Nat) (s : ValloxState) :
    (decode_status b now s).full_init_done = s.full_init_done := by
  simp only [decode_status,
    csc_full_init _ is_on_ref_sp, csc_full_init _ is_rh_mode_ref_sp,
    csc_full_init _ is_heating_mode_ref_sp, csc_full_init _ is_filter_ref_sp,
    csc_full_init _ is_heating_ref_sp, csc_full_init _ is_fault_ref_sp,
    csc_full_init _ is_service_needed_ref_sp]

theorem decode_variable08_full_init (b now : Nat) (s : ValloxState) :
    (decode_variable08 b now s).full_init_done = s.full_init_done := by
  simp only [decode_variable08,
    csc_full_init _ is_summer_mode_ref_sp, csc_full_init _ is_error_relay_ref_sp,
    csc_full_init _ is_motor_in_ref_sp, csc_full_init _ is_front_heating_ref_sp,
    csc_full_init _ is_motor_out_ref_sp, csc_full_init _ is_extra_func_ref_sp]

theorem decode_flags06_full_init (b now : Nat) (s : ValloxState) :
    (decode_flags06 b now s).full_init_done = s.full_init_done := by
  simp only [decode_flags06, csc_full_init _ is_switch_active_ref_sp]

theorem decode_program_full_init (b now : Nat) (s : ValloxState) :
    (decode_program b now s).full_init_done = s.full_init_done := by
  unfold decode_program call_status_changed
  dsimp only
  split
  · rfl
  · split <;> rfl

theorem handle_co2_full_init (hi lo : PyVal) (now : Nat) (s : ValloxState) :
    (handle_co2_total_value hi lo now s).1.full_init_done =
      s.full_init_done := by
  unfold handle_co2_total_value
  cases hi <;> cases lo <;>
    simp only [csc_full_init _ co2_ref_sp]

theorem decode_co2_hi_full_init (value now : Nat) (s : ValloxState) :
    (decode_co2_hi value now s).1.full_init_done = s.full_init_done := by
  unfold decode_co2_hi
  dsimp only
  split
  · rw [handle_co2_full_init]
  · rfl

theorem decode_co2_lo_full_init (value now : Nat) (s : ValloxState) :
    (decode_co2_lo value now s).1.full_init_done = s.full_init_done := by
  unfold decode_co2_lo
  dsimp only
  split
  · rw [handle_co2_full_init]
  · rfl

theorem decode_fan_speed_var_full_init (value now : Nat) (s : ValloxState) :
    (decode_fan_speed_var value now s).full_init_done = s.full_init_done := by
  unfold decode_fan_speed_var
  rw [csc_full_init _ fan_speed_ref_sp]

theorem decode_default_fan_speed_var_full_init (value now : Nat)
    (s : ValloxState) :
    (decode_default_fan_speed_var value now s).full_init_done =
      s.full_init_done := by
  unfold decode_default_fan_speed_var
  rw [csc_full_init _ default_fan_speed_ref_sp]

theorem decode_service_period_var_full_init (value now : Nat)
    (s : ValloxState) :
    (decode_service_period_var value now s).full_init_done =
      s.full_init_done := by
  unfold decode_service_period_var
  rw [csc_full_init _ service_period_ref_sp]

theorem decode_service_counter_var_full_init (value now : Nat)
    (s : ValloxState) :
    (decode_service_counter_var value now s).full_init_done =
      s.full_init_done := by
  unfold decode_service_counter_var
  rw [csc_full_init _ service_counter_ref_sp]

theorem decode_heating_target_var_full_init (value now : Nat)
    (s : ValloxState) :
    (decode_heating_target_var value now s).full_init_done =
      s.full_init_done := by
  unfold decode_heating_target_var
  rw [csc_full_init _ heating_target_ref_sp]

/-- The per-variable dispatch never touches `full_init_done`. -/
theorem decode_branch_full_init (var_id value now : Nat) (s : ValloxState) :
    (decode_branch var_id value now s).1.full_init_done = s.full_init_done := by
  unfold decode_branch
  by_cases h1 : var_id = VX_VARIABLE_T_OUTSIDE
  · rw [if_pos h1]; dsimp only; rw [csc_full_init _ outside_temp_ref_sp]
  rw [if_neg h1]
  by_cases h2 : var_id = VX_VARIABLE_T_EXHAUST
  · rw [if_pos h2]; dsimp only; rw [csc_full_init _ exhaust_temp_ref_sp]
  rw [if_neg h2]
  by_cases h3 : var_id = VX_VARIABLE_T_INSIDE
  · rw [if_pos h3]; dsimp only; rw [csc_full_init _ inside_temp_ref_sp]
  rw [if_neg h3]
  by_cases h4 : var_id = VX_VARIABLE_T_INCOMING
  · rw [if_pos h4]; dsimp only; rw [csc_full_init _ incoming_temp_ref_sp]
  rw [if_neg h4]
  by_cases h5 : var_id = VX_VARIABLE_RH1
  · rw [if_pos h5]; dsimp only; rw [csc_full_init _ rh1_ref_sp]
  rw [if_neg h5]
  by_cases h6 : var_id = VX_VARIABLE_RH2
  · rw [if_pos h6]
  rw [if_neg h6]
  by_cases h7 : var_id = VX_VARIABLE_CO2_HI
  · rw [if_pos h7, decode_co2_hi_full_init]
  rw [if_neg h7]
  by_cases h8 : var_id = VX_VARIABLE_CO2_LO
  · rw [if_pos h8, decode_co2_lo_full_init]
  rw [if_neg h8]
  by_cases h9 : var_id = VX_VARIABLE_FAN_SPEED
  · rw [if_pos h9]; dsimp only; rw [decode_fan_speed_var_full_init]
  rw [if_neg h9]
  by_cases h10 : var_id = VX_VARIABLE_DEFAULT_FAN_SPEED
  · rw [if_pos h10]; dsimp only; rw [decode_default_fan_speed_var_full_init]
  rw [if_neg h10]
  by_cases h11 : var_id = VX_VARIABLE_STATUS
  · rw [if_pos h11]; dsimp only; rw [decode_status_full_init]
  rw [if_neg h11]
  by_cases h12 : var_id = VX_VARIABLE_IO_08
  · rw [if_pos h12]; dsimp only; rw [decode_variable08_full_init]
  rw [if_neg h12]
  by_cases h13 : var_id = VX_VARIABLE_FLAGS_06
  · rw [if_pos h13]; dsimp only; rw [decode_flags06_full_init]
  rw [if_neg h13]
  by_cases h14 : var_id = VX_VARIABLE_SERVICE_PERIOD
  · rw [if_pos h14]; dsimp only; rw [decode_service_period_var_full_init]
  rw [if_neg h14]
  by_cases h15 : var_id = VX_VARIABLE_SERVICE_COUNTER
  · rw [if_pos h15]; dsimp only; rw [decode_service_counter_var_full_init]
  rw [if_neg h15]
  by_cases h16 : var_id = VX_VARIABLE_HEATING_TARGET
  · rw [if_pos h16]; dsimp only; rw [decode_heating_target_var_full_init]
  rw [if_neg h16]
  by_cases h17 : var_id = VX_VARIABLE_PROGRAM
  · rw [if_pos h17]; dsimp only; rw [decode_program_full_init]
  rw [if_neg h17]

/-- A frame whose checksum byte was produced by `_calculate_checksum`
always validates. -/
theorem validate_with_checksum (b0 b1 b2 b3 b4 : Nat) :
    validate_checksum (with_checksum b0 b1 b2 b3 b4) = true := by
  simp [validate_checksum, with_checksum, calculate_checksum]

theorem decode_branch_status_eq (value now : Nat) (s : ValloxState) :
    decode_branch VX_VARIABLE_STATUS value now s =
      (decode_status value now s, Option.none) := rfl

theorem decode_branch_rh2_eq (value now : Nat) (s : ValloxState) :
    decode_branch VX_VARIABLE_RH2 value now s =
      (s, some PyExn.typeError) := rfl

theorem decode_branch_co2_hi_eq (value now : Nat) (s : ValloxState) :
    decode_branch VX_VARIABLE_CO2_HI value now s =
      decode_co2_hi value now s := rfl

theorem decode_branch_co2_lo_eq (value now : Nat) (s : ValloxState) :
    decode_branch VX_VARIABLE_CO2_LO value now s =
      decode_co2_lo value now s := rfl

theorem decode_status_mutex (b now : Nat) (s : ValloxState) :
    (decode_status b now s).status_mutex = false := rfl

/-- Once `full_init_done` is true, no decoded frame resets it. -/
theorem decode_message_full_init_mono (m : Frame) (now : Nat)
    (s : ValloxState) (h : s.full_init_done = true) :
    (decode_message m now s).1.full_init_done = true := by
  unfold decode_message
  by_cases hv : validate_checksum m = true
  · rw [if_pos hv]
    have hb := decode_branch_full_init m.b3 m.b4 now s
    rcases hd : decode_branch m.b3 m.b4 now s with ⟨s1, e⟩
    rw [hd] at hb
    have hs1 : s1.full_init_done = true := by rw [hb, h]
    cases e
    · dsimp only
      rw [if_neg (by rw [hs1]; exact fun hcon => Bool.noConfusion hcon)]
      exact hs1
    · dsimp only
      exact hs1
  · rw [if_neg hv]
    exact h

theorem process_frame_full_init_mono (m : Frame) (now : Nat)
    (s : ValloxState) (h : s.full_init_done = true) :
    (process_frame m now s).1.full_init_done = true := by
  unfold process_frame
  split
  · exact h
  · cases hr : read_message m
    · dsimp only; exact h
    · dsimp only
      exact decode_message_full_init_mono _ now s h

/-- C9 helper: monotonicity over an arbitrary arrival sequence. -/
theorem process_frames_full_init_mono (ms : List (Frame × Nat))
    (s : ValloxState) (h : s.full_init_done = true) :
    (process_frames ms s).full_init_done = true := by
  induction ms generalizing s with
  | nil => exact h
  | cons p rest ih =>
      cases p with
      | mk m now =>
          exact ih _ (process_frame_full_init_mono m now s h)

/-- A status frame built by the codec clears the Pending-Write Guard when
decoded, whatever else the decode does. -/
theorem decode_message_status_clears_mutex (b now : Nat) (s : ValloxState) :
    (decode_message (with_checksum VX_MSG_DOMAIN VX_MSG_MAINBOARD_1
      VX_MSG_THIS_PANEL VX_VARIABLE_STATUS b) now s).1.status_mutex = false := by
  unfold decode_message
  rw [if_pos (validate_with_checksum _ _ _ _ _)]
  have h3 : (with_checksum VX_MSG_DOMAIN VX_MSG_MAINBOARD_1 VX_MSG_THIS_PANEL
      VX_VARIABLE_STATUS b).b3 = VX_VARIABLE_STATUS := rfl
  have h4 : (with_checksum VX_MSG_DOMAIN VX_MSG_MAINBOARD_1 VX_MSG_THIS_PANEL
      VX_VARIABLE_STATUS b).b4 = b := rfl
  rw [h3, h4, decode_branch_status_eq]
  dsimp only
  split
  · split
    · exact decode_status_mutex b now s
    · exact decode_status_mutex b now s
  · exact decode_status_mutex b now s

/-! ## Claim theorems -/

/-- C9: within one connection, once `full_init_done` (`init_ok`) is true
after some frame sequence, no subsequent sequence of received frames ever
makes it false again: the flag is monotone for the life of the connection. -/
theorem C9_full_init_monotone (ms : List (Frame × Nat)) (s : ValloxState)
    (h : s.full_init_done = true) :
    (process_frames ms s).full_init_done = true :=
  process_frames_full_init_mono ms s h

/-- Witness for C9 at a concrete initialized state and concrete frames. -/
theorem C9_full_init_monotone_witness :
    (process_frames
      [(Frame.mk 0x01 0x11 0x22 0x32 0x64 0xCA, 5000),
       (Frame.mk 0x01 0x11 0x22 0xA3 0x00 0xD7, 6000)]
      { initState true with full_init_done := true }).full_init_done = true :=
  C9_full_init_monotone _ _ (by rfl)

/-- C5: any checksum-valid frame carrying variable `0x30` (RH2) makes
`_decode_message` raise a `TypeError` (the RH2 branch passes three arguments
to the two-parameter `_check_status_change`), leaving the whole state — in
particular the `rh2` field — unchanged. -/
theorem C5_rh2_type_error (m : Frame) (now : Nat) (s : ValloxState)
    (hv : validate_checksum m = true) (h3 : m.b3 = VX_VARIABLE_RH2) :
    decode_message m now s = (s, some PyExn.typeError) := by
  unfold decode_message
  rw [if_pos hv, h3, decode_branch_rh2_eq]

/-- Witness for C5: a concrete valid RH2 frame aborts decoding with a
`TypeError` and changes nothing. -/
theorem C5_rh2_type_error_witness :
    decode_message (Frame.mk 0x01 0x11 0x22 0x30 0x60 0xC4) 1000
      (initState true) = (initState true, some PyExn.typeError) :=
  C5_rh2_type_error _ 1000 _ (by rfl) (by rfl)

/-- Counterexample to C4 as stated: `set_heating_mode_on`, called while the
Pending-Write Guard is held on a state whose shadow status byte already has
the heating-mode bit set (`0x0F`), is *not* a no-op — its "already on"
branch fires the `is_heating_mode` change notification (though it still
writes nothing to the transport). -/
theorem C4_heating_mode_setter_not_noop :
    (set_heating_mode_on 700 { initState true with
        status := { value := PyVal.int 0x0F, last_received := 500 },
        status_mutex := true }).1.notifications = ["is_heating_mode"] ∧
    (set_heating_mode_on 700 { initState true with
        status := { value := PyVal.int 0x0F, last_received := 500 },
        status_mutex := true }).1 ≠
      { initState true with
        status := { value := PyVal.int 0x0F, last_received := 500 },
        status_mutex := true } ∧
    (set_heating_mode_on 700 { initState true with
        status := { value := PyVal.int 0x0F, last_received := 500 },
        status_mutex := true }).1.writes = [] := by
  refine ⟨rfl, by decide, rfl⟩

/-- C4 (amended): at most one status write is outstanding at a time.  While
the Pending-Write Guard (`status_mutex`) is held, no status setter performs
a transport write: `set_on`, `set_off`, `set_rh_mode_on` and
`set_rh_mode_off` are complete no-ops, and the heating-mode setters are
no-ops except that when the shadow status byte already has heating mode in
the requested state they fire the `is_heating_mode` notification (still
writing nothing and mutating nothing else).  The guard is cleared by
decoding the next status frame and by the retry timer, and a write while the
guard is free both sets the guard and emits exactly the two set frames, so a
status frame arriving between two `set_on` calls allows the second write. -/
theorem C4_status_write_guard (s : ValloxState) (v : Int)
    (now b now2 now3 : Nat) (hv : s.status.value = PyVal.int v) :
    (s.status_mutex = true →
      set_on now s = (s, Option.none) ∧ set_off now s = (s, Option.none) ∧
      set_rh_mode_on now s = (s, Option.none) ∧
      set_rh_mode_off now s = (s, Option.none) ∧
      (set_heating_mode_on now s).1.writes = s.writes ∧
      (set_heating_mode_off now s).1.writes = s.writes ∧
      (v.toNat &&& VX_STATUS_FLAG_HEATING_MODE = 0 →
        set_heating_mode_on now s = (s, Option.none)) ∧
      (v.toNat &&& VX_STATUS_FLAG_HEATING_MODE ≠ 0 →
        set_heating_mode_on now s =
          (call_status_changed "is_heating_mode" s, Option.none)) ∧
      (v.toNat &&& VX_STATUS_FLAG_HEATING_MODE ≠ 0 →
        set_heating_mode_off now s = (s, Option.none)) ∧
      (v.toNat &&& VX_STATUS_FLAG_HEATING_MODE = 0 →
        set_heating_mode_off now s =
          (call_status_changed "is_heating_mode" s, Option.none))) ∧
    (decode_message (with_checksum VX_MSG_DOMAIN VX_MSG_MAINBOARD_1
        VX_MSG_THIS_PANEL VX_VARIABLE_STATUS b) now2 s).1.status_mutex =
      false ∧
    (retry_loop now3 s).status_mutex = false ∧
    (s.status_mutex = false → s.serialOpen = true →
      (set_on now s).1.status_mutex = true ∧
      (set_on now s).1.writes = s.writes ++
        [with_checksum VX_MSG_DOMAIN VX_MSG_THIS_PANEL VX_MSG_MAINBOARD_1
           VX_VARIABLE_STATUS (v.toNat ||| VX_STATUS_FLAG_POWER),
         with_checksum VX_MSG_DOMAIN VX_MSG_MAINBOARD_1 VX_MSG_PANELS
           VX_VARIABLE_STATUS (v.toNat ||| VX_STATUS_FLAG_POWER)]) := by
  refine ⟨?_, decode_message_status_clears_mutex b now2 s, rfl, ?_⟩
  · intro hm
    have hon : set_on now s = (s, Option.none) := by
      unfold set_on set_status_variable
      rw [hv]
      dsimp only
      rw [hm]
      norm_num
    have hoff : set_off now s = (s, Option.none) := by
      unfold set_off set_status_variable
      rw [hv]
      dsimp only
      rw [hm]
      norm_num
    have hrhon : set_rh_mode_on now s = (s, Option.none) := by
      unfold set_rh_mode_on set_status_variable
      rw [hv]
      dsimp only
      rw [hm]
      norm_num
    have hrhoff : set_rh_mode_off now s = (s, Option.none) := by
      unfold set_rh_mode_off set_status_variable
      rw [hv]
      dsimp only
      rw [hm]
      norm_num
    have hhon0 : v.toNat &&& VX_STATUS_FLAG_HEATING_MODE = 0 →
        set_heating_mode_on now s = (s, Option.none) := by
      intro hbit
      unfold set_heating_mode_on set_status_variable
      rw [hv]
      dsimp only
      rw [if_neg (fun hne => hne hbit), hm]
      norm_num
    have hhon1 : v.toNat &&& VX_STATUS_FLAG_HEATING_MODE ≠ 0 →
        set_heating_mode_on now s =
          (call_status_changed "is_heating_mode" s, Option.none) := by
      intro hbit
      unfold set_heating_mode_on
      rw [hv]
      dsimp only
      rw [if_pos hbit]
    have hhoff1 : v.toNat &&& VX_STATUS_FLAG_HEATING_MODE ≠ 0 →
        set_heating_mode_off now s = (s, Option.none) := by
      intro hbit
      unfold set_heating_mode_off set_status_variable
      rw [hv]
      dsimp only
      rw [if_neg (fun heq => hbit heq), hm]
      norm_num
    have hhoff0 : v.toNat &&& VX_STATUS_FLAG_HEATING_MODE = 0 →
        set_heating_mode_off now s =
          (call_status_changed "is_heating_mode" s, Option.none) := by
      intro hbit
      unfold set_heating_mode_off
      rw [hv]
      dsimp only
      rw [if_pos hbit]
    have hwon : (set_heating_mode_on now s).1.writes = s.writes := by
      by_cases hb : v.toNat &&& VX_STATUS_FLAG_HEATING_MODE = 0
      · rw [hhon0 hb]
      · rw [hhon1 hb]; rfl
    have hwoff : (set_heating_mode_off now s).1.writes = s.writes := by
      by_cases hb : v.toNat &&& VX_STATUS_FLAG_HEATING_MODE = 0
      · rw [hhoff0 hb]; rfl
      · rw [hhoff1 hb]
    exact ⟨hon, hoff, hrhon, hrhoff, hwon, hwoff, hhon0, hhon1, hhoff1, hhoff0⟩
  · intro hm ho
    unfold set_on set_status_variable set_variable
    rw [hv]
    dsimp only
    rw [hm, ho]
    norm_num [call_status_changed, List.append_assoc]

/-- Witness for C4 (amended) at a concrete state with a known status byte
(`0x06`: heating-mode bit clear). -/
theorem C4_status_write_guard_witness :
    set_on 600 { initState true with
        status := { value := PyVal.int 0x06, last_received := 500 },
        status_mutex := true } =
      ({ initState true with
          status := { value := PyVal.int 0x06, last_received := 500 },
          status_mutex := true }, Option.none) ∧
    set_rh_mode_on 600 { initState true with
        status := { value := PyVal.int 0x06, last_received := 500 },
        status_mutex := true } =
      ({ initState true with
          status := { value := PyVal.int 0x06, last_received := 500 },
          status_mutex := true }, Option.none) ∧
    set_heating_mode_on 600 { initState true with
        status := { value := PyVal.int 0x06, last_received := 500 },
        status_mutex := true } =
      ({ initState true with
          status := { value := PyVal.int 0x06, last_received := 500 },
          status_mutex := true }, Option.none) ∧
    (set_on 600 { initState true with
        status := { value := PyVal.int 0x06, last_received := 500 } }).1.status_mutex
      = true ∧
    (set_on 600 { initState true with
        status := { value := PyVal.int 0x06, last_received := 500 } }).1.writes.length
      = 2 := by
  refine ⟨((C4_status_write_guard _ 0x06 600 0 0 0 rfl).1 rfl).1,
    ((C4_status_write_guard _ 0x06 600 0 0 0 rfl).1 rfl).2.2.1,
    ((C4_status_write_guard _ 0x06 600 0 0 0 rfl).1 rfl).2.2.2.2.2.2.1
      (by decide), ?_, ?_⟩
  · exact ((C4_status_write_guard _ 0x06 600 0 0 0 rfl).2.2.2 rfl rfl).1
  · rw [((C4_status_write_guard _ 0x06 600 0 0 0 rfl).2.2.2 rfl rfl).2]
    rfl

/-- C10: every `_set_variable` command emits the frame twice — first
`THIS_PANEL → target`, then `MAINBOARD_1 → PANELS` — and each copy carries a
checksum recomputed over its own five leading bytes, so both copies
validate. -/
theorem C10_set_variable_double_write (var_id value target : Nat)
    (s : ValloxState) (h : s.serialOpen = true) :
    (set_variable var_id value target s).writes = s.writes ++
      [with_checksum VX_MSG_DOMAIN VX_MSG_THIS_PANEL target var_id value,
       with_checksum VX_MSG_DOMAIN VX_MSG_MAINBOARD_1 VX_MSG_PANELS var_id
         value] ∧
    validate_checksum
      (with_checksum VX_MSG_DOMAIN VX_MSG_THIS_PANEL target var_id value) =
      true ∧
    validate_checksum
      (with_checksum VX_MSG_DOMAIN VX_MSG_MAINBOARD_1 VX_MSG_PANELS var_id
        value) = true := by
  refine ⟨?_, validate_with_checksum _ _ _ _ _, validate_with_checksum _ _ _ _ _⟩
  unfold set_variable
  rw [h]
  norm_num

/-- Witness for C10: a concrete fan-speed set command writes its two
addressed copies. -/
theorem C10_set_variable_double_write_witness :
    (set_variable VX_VARIABLE_FAN_SPEED 0x07 VX_MSG_MAINBOARDS
        (initState true)).writes =
      [with_checksum VX_MSG_DOMAIN VX_MSG_THIS_PANEL VX_MSG_MAINBOARDS
         VX_VARIABLE_FAN_SPEED 0x07,
       with_checksum VX_MSG_DOMAIN VX_MSG_MAINBOARD_1 VX_MSG_PANELS
         VX_VARIABLE_FAN_SPEED 0x07] :=
  (C10_set_variable_double_write VX_VARIABLE_FAN_SPEED 0x07 VX_MSG_MAINBOARDS
    (initState true) rfl).1

/-- `_read_message` yields either nothing or the frame it was given. -/
theorem read_message_none_or_self (m : Frame) :
    read_message m = Option.none ∨ read_message m = some m := by
  unfold read_message
  split
  · exact Or.inl rfl
  · split
    · exact Or.inr rfl
    · exact Or.inl rfl

/-- C8: a received frame changes nothing unless its first byte is the domain
constant, its sender and receiver bytes are in the allow-lists, and its
checksum matches; any frame failing one of these checks is silently dropped
(the state is returned unchanged and no error is surfaced). -/
theorem C8_invalid_frames_dropped (m : Frame) (now : Nat) (s : ValloxState)
    (h : m.b0 ≠ VX_MSG_DOMAIN ∨ m.b1 ∉ validSenders ∨ m.b2 ∉ validReceivers ∨
      validate_checksum m = false) :
    process_frame m now s = (s, Option.none) := by
  unfold process_frame
  split
  · rfl
  · rcases h with h | h | h | h
    · have hr : read_message m = Option.none := by
        unfold read_message
        rw [if_pos h]
      rw [hr]
    · have hr : read_message m = Option.none := by
        unfold read_message
        split
        · rfl
        · rw [if_neg (fun hc => h hc.1)]
      rw [hr]
    · have hr : read_message m = Option.none := by
        unfold read_message
        split
        · rfl
        · rw [if_neg (fun hc => h hc.2)]
      rw [hr]
    · rcases read_message_none_or_self m with hr | hr
      · rw [hr]
      · rw [hr]
        dsimp only
        unfold decode_message
        rw [h]
        norm_num

/-- Witness for C8: a frame with a corrupted checksum is dropped without any
state change. -/
theorem C8_invalid_frames_dropped_witness :
    process_frame (Frame.mk 0x01 0x11 0x22 0x32 0x64 0xCB) 700
      (initState true) = (initState true, Option.none) :=
  C8_invalid_frames_dropped _ 700 _ (Or.inr (Or.inr (Or.inr (by rfl))))

/-! ## Checksum algebra (C7) -/

/-- All six bytes of the frame are in byte range. -/
def frame_bytes_lt_256 (m : Frame) : Prop :=
  m.b0 < 256 ∧ m.b1 < 256 ∧ m.b2 < 256 ∧ m.b3 < 256 ∧ m.b4 < 256 ∧
    m.b5 < 256

instance (m : Frame) : Decidable (frame_bytes_lt_256 m) := by
  unfold frame_bytes_lt_256
  infer_instance

/-- Flip bit `b` of byte `i` (one of the first five bytes) of a frame. -/
def flip_bit (m : Frame) (i : Fin 5) (b : Nat) : Frame :=
  match i with
  | ⟨0, _⟩ => { m with b0 := m.b0 ^^^ 2 ^ b }
  | ⟨1, _⟩ => { m with b1 := m.b1 ^^^ 2 ^ b }
  | ⟨2, _⟩ => { m with b2 := m.b2 ^^^ 2 ^ b }
  | ⟨3, _⟩ => { m with b3 := m.b3 ^^^ 2 ^ b }
  | ⟨4, _⟩ => { m with b4 := m.b4 ^^^ 2 ^ b }

theorem xor_two_pow_ne (x b : Nat) : x ^^^ 2 ^ b ≠ x := by
  intro hcon
  have h1 : x ^^^ 2 ^ b = x ^^^ 0 := by rw [Nat.xor_zero]; exact hcon
  have h2 : (2 : Nat) ^ b = 0 := Nat.xor_right_injective h1
  have := Nat.two_pow_pos b
  omega

theorem xor_two_pow_lt (x b : Nat) (hx : x < 256) (hb : b < 8) :
    x ^^^ 2 ^ b < 256 := by
  have h1 : x < 2 ^ 8 := by norm_num at hx ⊢; omega
  have h2 : (2 : Nat) ^ b < 2 ^ 8 := Nat.pow_lt_pow_right (by norm_num) hb
  have h3 : Nat.bitwise bne x (2 ^ b) < 2 ^ 8 := Nat.bitwise_lt h1 h2
  simpa [HXor.hXor, Xor.xor, Nat.xor] using h3

/-- C7: for every valid byte-range frame, the checksum byte equals the sum of
the first five bytes mod 256, re-encoding the first five bytes reproduces the
frame exactly, and flipping any single bit of any of bytes 0–4 makes the
checksum validation reject the frame. -/
theorem C7_checksum_roundtrip (f : Frame) (hv : validate_checksum f = true)
    (hw : frame_bytes_lt_256 f) :
    f.b5 = (f.b0 + f.b1 + f.b2 + f.b3 + f.b4) % 256 ∧
    with_checksum f.b0 f.b1 f.b2 f.b3 f.b4 = f ∧
    ∀ (i : Fin 5) (b : Nat), b < 8 →
      validate_checksum (flip_bit f i b) = false := by
  have hcs : (f.b0 + f.b1 + f.b2 + f.b3 + f.b4) % 256 = f.b5 := by
    simpa [validate_checksum, calculate_checksum] using hv
  refine ⟨hcs.symm, ?_, ?_⟩
  · cases f with
    | mk b0 b1 b2 b3 b4 b5 =>
        unfold with_checksum calculate_checksum
        dsimp only at hcs ⊢
        rw [hcs]
  · intro i b hb
    fin_cases i
    · have hne := xor_two_pow_ne f.b0 b
      have hlt := xor_two_pow_lt f.b0 b hw.1 hb
      have hxb : f.b0 < 256 := hw.1
      dsimp only [flip_bit]
      simp only [validate_checksum, calculate_checksum, beq_eq_false_iff_ne]
      omega
    · have hne := xor_two_pow_ne f.b1 b
      have hlt := xor_two_pow_lt f.b1 b hw.2.1 hb
      have hxb : f.b1 < 256 := hw.2.1
      dsimp only [flip_bit]
      simp only [validate_checksum, calculate_checksum, beq_eq_false_iff_ne]
      omega
    · have hne := xor_two_pow_ne f.b2 b
      have hlt := xor_two_pow_lt f.b2 b hw.2.2.1 hb
      have hxb : f.b2 < 256 := hw.2.2.1
      dsimp only [flip_bit]
      simp only [validate_checksum, calculate_checksum, beq_eq_false_iff_ne]
      omega
    · have hne := xor_two_pow_ne f.b3 b
      have hlt := xor_two_pow_lt f.b3 b hw.2.2.2.1 hb
      have hxb : f.b3 < 256 := hw.2.2.2.1
      dsimp only [flip_bit]
      simp only [validate_checksum, calculate_checksum, beq_eq_false_iff_ne]
      omega
    · have hne := xor_two_pow_ne f.b4 b
      have hlt := xor_two_pow_lt f.b4 b hw.2.2.2.2.1 hb
      have hxb : f.b4 < 256 := hw.2.2.2.2.1
      dsimp only [flip_bit]
      simp only [validate_checksum, calculate_checksum, beq_eq_false_iff_ne]
      omega

/-- Witness for C7: a concrete valid frame round-trips and is rejected after
one bit of byte 3 is flipped. -/
theorem C7_checksum_roundtrip_witness :
    with_checksum 0x01 0x11 0x22 0x32 0x64 =
      Frame.mk 0x01 0x11 0x22 0x32 0x64 0xCA ∧
    validate_checksum
      (flip_bit (Frame.mk 0x01 0x11 0x22 0x32 0x64 0xCA) 3 0) = false :=
  ⟨(C7_checksum_roundtrip (Frame.mk 0x01 0x11 0x22 0x32 0x64 0xCA)
      (by rfl) (by decide)).2.1,
   (C7_checksum_roundtrip (Frame.mk 0x01 0x11 0x22 0x32 0x64 0xCA)
      (by rfl) (by decide)).2.2 3 0 (by decide)⟩

/-! ## CO₂ windowing (C6) -/

/-- C6: starting from a fresh state, a CO₂ hi-byte at time `t` (ms) followed
by the lo-byte `d` ms later materializes no composite value when
`d ≥ 2000` — the `co2` field stays unset — while for `d < 2000` (such as the
claimed 500 ms) the composite `lo + (hi << 8)` is stored. -/
theorem C6_co2_windowing (hi lo t d : Nat) (ht : 2000 ≤ t) :
    (2000 ≤ d →
      (decode_message (with_checksum 0x01 0x11 0x22 VX_VARIABLE_CO2_LO lo)
        (t + d)
        (decode_message (with_checksum 0x01 0x11 0x22 VX_VARIABLE_CO2_HI hi)
          t (initState true)).1).1.co2 = ({} : ValueWithTimestamp)) ∧
    (d < 2000 →
      (decode_message (with_checksum 0x01 0x11 0x22 VX_VARIABLE_CO2_LO lo)
        (t + d)
        (decode_message (with_checksum 0x01 0x11 0x22 VX_VARIABLE_CO2_HI hi)
          t (initState true)).1).1.co2.value =
      PyVal.int ((lo : Int) + (hi : Int) * 2 ^ 8)) := by
  have h1 : (decode_message (with_checksum 0x01 0x11 0x22 VX_VARIABLE_CO2_HI
      hi) t (initState true)).1 =
      { initState true with
        co2_hi := { value := PyVal.int hi, last_received := t } } := by
    unfold decode_message
    rw [if_pos (validate_with_checksum _ _ _ _ _)]
    rw [show (with_checksum 0x01 0x11 0x22 VX_VARIABLE_CO2_HI hi).b3 =
          VX_VARIABLE_CO2_HI from rfl,
        show (with_checksum 0x01 0x11 0x22 VX_VARIABLE_CO2_HI hi).b4 = hi
          from rfl,
        decode_branch_co2_hi_eq]
    unfold decode_co2_hi
    dsimp only [initState]
    rw [if_neg (show ¬ (t - 0 < CO2_LIFE_TIME_MS) from by
      simp only [CO2_LIFE_TIME_MS]; omega)]
    rfl
  rw [h1]
  constructor
  · intro hd
    unfold decode_message
    rw [if_pos (validate_with_checksum _ _ _ _ _)]
    rw [show (with_checksum 0x01 0x11 0x22 VX_VARIABLE_CO2_LO lo).b3 =
          VX_VARIABLE_CO2_LO from rfl,
        show (with_checksum 0x01 0x11 0x22 VX_VARIABLE_CO2_LO lo).b4 = lo
          from rfl,
        decode_branch_co2_lo_eq]
    unfold decode_co2_lo
    dsimp only
    rw [if_neg (show ¬ (t + d - t < CO2_LIFE_TIME_MS) from by
      simp only [CO2_LIFE_TIME_MS]; omega)]
    rfl
  · intro hd
    unfold decode_message
    rw [if_pos (validate_with_checksum _ _ _ _ _)]
    rw [show (with_checksum 0x01 0x11 0x22 VX_VARIABLE_CO2_LO lo).b3 =
          VX_VARIABLE_CO2_LO from rfl,
        show (with_checksum 0x01 0x11 0x22 VX_VARIABLE_CO2_LO lo).b4 = lo
          from rfl,
        decode_branch_co2_lo_eq]
    unfold decode_co2_lo
    dsimp only
    rw [if_pos (show t + d - t < CO2_LIFE_TIME_MS from by
      simp only [CO2_LIFE_TIME_MS]; omega)]
    rfl

/-- Witness for C6 at concrete bytes, with the claimed 2500 ms and 500 ms
gaps. -/
theorem C6_co2_windowing_witness :
    ((decode_message (with_checksum 0x01 0x11 0x22 VX_VARIABLE_CO2_LO 0x10)
        (2000 + 2500)
        (decode_message (with_checksum 0x01 0x11 0x22 VX_VARIABLE_CO2_HI 0x03)
          2000 (initState true)).1).1.co2 = ({} : ValueWithTimestamp)) ∧
    ((decode_message (with_checksum 0x01 0x11 0x22 VX_VARIABLE_CO2_LO 0x10)
        (2000 + 500)
        (decode_message (with_checksum 0x01 0x11 0x22 VX_VARIABLE_CO2_HI 0x03)
          2000 (initState true)).1).1.co2.value =
      PyVal.int ((0x10 : Int) + (0x03 : Int) * 2 ^ 8)) :=
  ⟨(C6_co2_windowing 0x03 0x10 2000 2500 (by decide)).1 (by decide),
   (C6_co2_windowing 0x03 0x10 2000 500 (by decide)).2 (by decide)⟩

/-! ## Setter domain validation (C1) -/

/-- C1: the `fan_speed` setter's guard checks only `speed <= 8`, so the
out-of-domain argument `0` is *not* a no-op: the setter emits the two write
frames (for the fan-speed-1 code `0x01`, via the `_fan_speed_to_hex`
fallback), overwrites the stored Observed Value with the invalid `0`, and
fires a change notification — while the out-of-range inputs of the
`heating_target` / `service_period` / `service_counter` setters are correctly
rejected as no-ops. -/
theorem C1_fan_speed_setter_accepts_zero :
    (fan_speed_set 0 (initState true)).writes =
      [with_checksum VX_MSG_DOMAIN VX_MSG_THIS_PANEL VX_MSG_MAINBOARDS
         VX_VARIABLE_FAN_SPEED VX_FAN_SPEED_1,
       with_checksum VX_MSG_DOMAIN VX_MSG_MAINBOARD_1 VX_MSG_PANELS
         VX_VARIABLE_FAN_SPEED VX_FAN_SPEED_1] ∧
    (fan_speed_set 0 (initState true)).fan_speed.value = PyVal.int 0 ∧
    (fan_speed_set 0 (initState true)).notifications = ["fan_speed"] ∧
    (default_fan_speed_set (-3) (initState true)).notifications =
      ["default_fan_speed"] ∧
    heating_target_set 30 (initState true) = initState true ∧
    service_period_set 300 (initState true) = initState true ∧
    service_counter_set (-1) (initState true) = initState true := by
  refine ⟨rfl, rfl, rfl, rfl, by decide, by decide, by decide⟩

/-! ## Unset getters (C2) -/

/-- Counterexample to C2 as stated: in a fresh state where no temperature
was ever received, the `inside_temp` getter returns `0`, not the `-999`
sentinel. -/
theorem C2_inside_temp_returns_zero :
    inside_temp_get (initState true) = PyVal.int 0 ∧
    PyVal.int 0 ≠ PyVal.int NOT_SET := by
  refine ⟨rfl, by decide⟩

/-- C2 (amended): the sensor getters guarded by a reception timestamp
(`rh1`, `rh2`, `co2`) and the configuration getters (`fan_speed`,
`default_fan_speed`, `service_period`, `service_counter`, `heating_target`)
return the `-999` sentinel while unset, but the four temperature getters
return `0` instead. -/
theorem C2_unset_getters (s : ValloxState) :
    (s.rh1.last_received = 0 → rh1_get s = PyVal.int NOT_SET) ∧
    (s.rh2.last_received = 0 → rh2_get s = PyVal.int NOT_SET) ∧
    (s.co2.last_received = 0 → co2_get s = PyVal.int NOT_SET) ∧
    (s.fan_speed.value = PyVal.none →
      fan_speed_get s = PyVal.int NOT_SET) ∧
    (s.default_fan_speed.value = PyVal.none →
      default_fan_speed_get s = PyVal.int NOT_SET) ∧
    (s.service_period.value = PyVal.none →
      service_period_get s = PyVal.int NOT_SET) ∧
    (s.service_counter.value = PyVal.none →
      service_counter_get s = PyVal.int NOT_SET) ∧
    (s.heating_target.value = PyVal.none →
      heating_target_get s = PyVal.int NOT_SET) ∧
    (s.inside_temp.value = PyVal.none → inside_temp_get s = PyVal.int 0) ∧
    (s.outside_temp.value = PyVal.none → outside_temp_get s = PyVal.int 0) ∧
    (s.incoming_temp.value = PyVal.none →
      incoming_temp_get s = PyVal.int 0) ∧
    (s.exhaust_temp.value = PyVal.none → exhaust_temp_get s = PyVal.int 0) := by
  refine ⟨?_, ?_, ?_, ?_, ?_, ?_, ?_, ?_, ?_, ?_, ?_, ?_⟩ <;> intro h
  · unfold rh1_get; rw [if_pos h]
  · unfold rh2_get; rw [if_pos h]
  · unfold co2_get; rw [if_pos h]
  · unfold fan_speed_get; rw [if_pos h]
  · unfold default_fan_speed_get; rw [if_pos h]
  · unfold service_period_get; rw [if_pos h]
  · unfold service_counter_get; rw [if_pos h]
  · unfold heating_target_get; rw [if_pos h]
  · unfold inside_temp_get; rw [if_pos h]
  · unfold outside_temp_get; rw [if_pos h]
  · unfold incoming_temp_get; rw [if_pos h]
  · unfold exhaust_temp_get; rw [if_pos h]

/-- Witness for C2 (amended) at the freshly constructed state. -/
theorem C2_unset_getters_witness :
    rh1_get (initState true) = PyVal.int NOT_SET ∧
    fan_speed_get (initState true) = PyVal.int NOT_SET ∧
    inside_temp_get (initState true) = PyVal.int 0 :=
  ⟨(C2_unset_getters (initState true)).1 rfl,
   (C2_unset_getters (initState true)).2.2.2.1 rfl,
   (C2_unset_getters (initState true)).2.2.2.2.2.2.2.2.1 rfl⟩

/-! ## Initial synthetic snapshot (C3) -/

/-- A frame sequence (all addressed mainboard → this panel) that supplies
every status-class and configuration variable once, completing
initialization on its last frame. -/
def C3_frames : List (Frame × Nat) :=
  [(with_checksum 0x01 0x11 0x22 VX_VARIABLE_STATUS 0x01, 1000),
   (with_checksum 0x01 0x11 0x22 VX_VARIABLE_IO_08 0x02, 1100),
   (with_checksum 0x01 0x11 0x22 VX_VARIABLE_FAN_SPEED 0x01, 1200),
   (with_checksum 0x01 0x11 0x22 VX_VARIABLE_DEFAULT_FAN_SPEED 0x01, 1300),
   (with_checksum 0x01 0x11 0x22 VX_VARIABLE_SERVICE_PERIOD 0x06, 1400),
   (with_checksum 0x01 0x11 0x22 VX_VARIABLE_SERVICE_COUNTER 0x03, 1500),
   (with_checksum 0x01 0x11 0x22 VX_VARIABLE_HEATING_TARGET 0xA0, 1600)]

/-- Counterexample to C3 as stated: feeding the full initialization sequence
to a fresh engine fires one synthetic notification per `self.data` key —
32 of them (including `updated` and the raw shadow-byte keys), not 14. -/
theorem C3_snapshot_has_32_notifications :
    (process_frames C3_frames (initState true)).notifications = data_keys ∧
    data_keys.length = 32 ∧ ¬ (data_keys.length = 14) :=
  ⟨rfl, rfl, by decide⟩

/-- C3 (amended): on the frame that flips the status-completeness flag to
true, the engine appends exactly one synthetic notification per `self.data`
key — the 32 keys, in dictionary-insertion (registration) order — and once
the flag is true a decoded frame only ever produces its branch's own
notifications, so the synthetic snapshot never repeats within the same
connection. -/
theorem C3_init_snapshot (m : Frame) (now : Nat) (s s1 : ValloxState)
    (hv : validate_checksum m = true)
    (h0 : s.full_init_done = false)
    (hbr : decode_branch m.b3 m.b4 now s = (s1, Option.none))
    (hdone : is_status_init_done s1 = true) :
    (decode_message m now s).1.notifications =
      s1.notifications ++ data_keys ∧
    (decode_message m now s).1.full_init_done = true ∧
    data_keys.length = 32 ∧
    (∀ s2 : ValloxState, s2.full_init_done = true →
      (decode_message m now s2).1.notifications =
        (decode_branch m.b3 m.b4 now s2).1.notifications) := by
  have hfi : s1.full_init_done = false := by
    have hb := decode_branch_full_init m.b3 m.b4 now s
    rw [hbr] at hb
    rw [hb, h0]
  refine ⟨?_, ?_, rfl, ?_⟩
  · unfold decode_message
    rw [if_pos hv, hbr]
    dsimp only
    rw [if_pos hfi]
    rw [if_pos (show ValloxState.full_init_done
        { s1 with full_init_done := is_status_init_done s1 } = true from hdone)]
  · unfold decode_message
    rw [if_pos hv, hbr]
    dsimp only
    rw [if_pos hfi]
    rw [if_pos (show ValloxState.full_init_done
        { s1 with full_init_done := is_status_init_done s1 } = true from hdone)]
    exact hdone
  · intro s2 h2
    unfold decode_message
    rw [if_pos hv]
    have hb2 := decode_branch_full_init m.b3 m.b4 now s2
    rcases hd : decode_branch m.b3 m.b4 now s2 with ⟨s3, e⟩
    rw [hd] at hb2
    have hs3 : s3.full_init_done = true := by rw [hb2, h2]
    cases e
    · dsimp only
      rw [if_neg (by rw [hs3]; exact fun hcon => Bool.noConfusion hcon)]
    · dsimp only

/-- Witness for C3 (amended): the seventh frame of the concrete
initialization run is the one that completes initialization and appends the
32-entry synthetic snapshot. -/
theorem C3_init_snapshot_witness :
    (decode_message (with_checksum 0x01 0x11 0x22 VX_VARIABLE_HEATING_TARGET
        0xA0) 1600
      (process_frames (C3_frames.take 6) (initState true))).1.notifications =
      (decode_branch VX_VARIABLE_HEATING_TARGET 0xA0 1600
        (process_frames (C3_frames.take 6) (initState true))).1.notifications
        ++ data_keys := by
  have h := (C3_init_snapshot
    (with_checksum 0x01 0x11 0x22 VX_VARIABLE_HEATING_TARGET 0xA0) 1600
    (process_frames (C3_frames.take 6) (initState true))
    (decode_branch VX_VARIABLE_HEATING_TARGET 0xA0 1600
      (process_frames (C3_frames.take 6) (initState true))).1
    (by rfl) (by rfl) (by rfl) (by rfl)).1
  exact h

end ValloxSpec
